import Mathlib

/-!
Shallow embedding of the notebook-sources scraping-and-archival pipeline.

Each definition mirrors one Python definition of the repository:
* `ReferenceStatus`, `Reference`      ← backend/core/models.py
* `ArchiveOutcome`, `resolve`         ← backend/core/archive_resolver.py
* `fetch_html`, `scrape`              ← backend/core/scraper.py
* `render_placeholder_pdf`            ← backend/core/pdf_service.py
* `acquireErr`, `startPool`           ← backend/core/browser_pool.py
* `broadcastRun`, `getProgressPercent`← backend/api/routes_progress.py
* `markScrapingPrologue`, `reset_reference_status` ← backend/api/routes_references.py

External I/O (the `requests` HTTP client, the filesystem, the Playwright
engine) is represented by explicit environment records whose fields give the
result of each call site: a successful response or a raised exception.
Python exceptions are modelled with `Except`; an uncaught exception is an
`Except.error` value.
-/

/-- The status enum of `backend/core/models.py` (`class ReferenceStatus`).
Its members are exactly `pending`, `scraped`, `failed`, `blocked`; the
source defines no `scraping` member. -/
inductive ReferenceStatus where
  | pending
  | scraped
  | failed
  | blocked
deriving DecidableEq, Repr

/-- The member table of the `ReferenceStatus` enum, as declared in
`backend/core/models.py` lines 10-14 (name of the member, member). -/
def referenceStatusMembers : List (String × ReferenceStatus) :=
  [("pending", ReferenceStatus.pending),
   ("scraped", ReferenceStatus.scraped),
   ("failed", ReferenceStatus.failed),
   ("blocked", ReferenceStatus.blocked)]

/-- Python exception values reaching the embedded code. -/
inductive PyErr where
  /-- `AttributeError: <name>` raised by an attribute access that resolves
  to no member of the class. -/
  | attributeError (name : String)
  /-- `HTTPException(status_code=404)` raised by a route handler. -/
  | httpNotFound
  /-- `requests.HTTPError` raised by `raise_for_status` for the given
  HTTP status code. -/
  | httpError (status : Nat)
  /-- Any other exception, as a (class name, message) pair. -/
  | exc (ty : String) (msg : String)
deriving DecidableEq, Repr

/-- Runtime attribute access `ReferenceStatus.<name>` on the enum class:
succeeds exactly for the members declared in `backend/core/models.py`,
otherwise raises `AttributeError` (Python enum semantics). -/
def referenceStatusAttr (name : String) : Except PyErr ReferenceStatus :=
  match (referenceStatusMembers.filter (fun m => m.1 = name)).head? with
  | some m => Except.ok m.2
  | none => Except.error (PyErr.attributeError name)

/-- The `Reference` row of `backend/core/models.py`.  `id` is the primary
key (UUIDs are represented by naturals); dates and datetimes are
represented by naturals. -/
structure Reference where
  id : Nat
  wiki_page_id : Nat
  title : Option String := none
  url : String
  pub_date : Option Nat := none
  access_date : Option Nat := none
  suspected_paywall : Bool := false
  status : ReferenceStatus := ReferenceStatus.pending
  pdf_path : Option String := none
  html_path : Option String := none
  archive_source : Option String := none
  archive_timestamp : Option Nat := none
  error : Option String := none
  scraped_at : Option Nat := none
deriving DecidableEq, Repr

/-- Python truthiness of an optional string field (`if ref.pdf_path:`):
`None` and the empty string are falsy. -/
def strTruthy : Option String → Bool
  | none => false
  | some s => s ≠ ""

/-- Python `a or b` for an optional string `a` and a string default `b`
(`outcome.archive_url or ref.url`). -/
def orElseStr (a : Option String) (b : String) : String :=
  match a with
  | none => b
  | some s => if s = "" then b else s

/-! ## Archive resolver (`backend/core/archive_resolver.py`) -/

/-- The `ArchiveOutcome` dataclass of `backend/core/archive_resolver.py`
lines 21-28.  Its fields are exactly `success`, `archive_url`, `html`,
`source`, `timestamp`, `reason`; the dataclass declares no retry-after
field. -/
structure ArchiveOutcome where
  success : Bool
  archive_url : Option String := none
  html : Option String := none
  source : Option String := none
  timestamp : Option Nat := none
  reason : Option String := none
deriving DecidableEq, Repr

/-- `datetime.strptime(ts, "%Y%m%d%H%M%S")`: succeeds on a 14-digit
string (the parsed instant is represented by the digit value), raises
`ValueError` otherwise. -/
def strptimeWayback (ts : String) : Except String Nat :=
  match ts.toNat? with
  | some n => if ts.length = 14 then Except.ok n else Except.error ("time data " ++ ts ++ " does not match format")
  | none => Except.error ("time data " ++ ts ++ " does not match format")

/-- Result of one call to the Wayback availability endpoint followed by
the snapshot fetch, as consumed by `_check_availability`:
either the availability request raises, or the JSON holds no `closest`
snapshot, or it holds one with a URL, an optional 14-char timestamp and
the result of fetching the snapshot HTML. -/
inductive AvailRes where
  | exc (e : String)
  | nosnap
  | closest (url : String) (ts : Option String) (fetch : Except String String)

/-- Environment of one `ArchiveResolver.resolve` call: the outcome of the
`i`-th availability check (check 0 happens first, checks 1..8 happen
during aggressive polling) and the outcome of the save-trigger request. -/
structure ResolverEnv where
  availAt : Nat → AvailRes
  save : Except String Unit

/-- `ArchiveResolver._check_availability` (archive_resolver.py lines
72-91) at the `i`-th call of the enclosing `resolve`: raises on a network
error, returns a `no-snapshot` failure outcome when the index holds no
snapshot, otherwise fetches the snapshot and builds a success outcome
with `source="wayback"` and the parsed timestamp (`None` tolerated). -/
def check_availability (env : ResolverEnv) (i : Nat) : Except String ArchiveOutcome :=
  match env.availAt i with
  | AvailRes.exc e => Except.error e
  | AvailRes.nosnap => Except.ok { success := false, reason := some "no-snapshot" }
  | AvailRes.closest url ts fetch =>
    match fetch with
    | Except.error e => Except.error e
    | Except.ok html =>
      match ts with
      | none =>
        Except.ok { success := true, archive_url := some url, html := some html,
                    source := some "wayback", timestamp := none }
      | some t =>
        match strptimeWayback t with
        | Except.error e => Except.error e
        | Except.ok n =>
          Except.ok { success := true, archive_url := some url, html := some html,
                      source := some "wayback", timestamp := some n }

/-- The aggressive-mode polling loop of `resolve` (archive_resolver.py
lines 59-65): up to `fuel` iterations, each sleeping 15 seconds and then
re-checking availability; returns the outcome and the total seconds slept.
The 2-minute budget admits exactly 8 iterations; when it is exhausted the
loop falls through to the `wayback-save-timeout` failure outcome.
Errors carry the seconds slept before they were raised. -/
def pollLoop (env : ResolverEnv) (i : Nat) (fuel : Nat) (slept : Nat) :
    Except (String × Nat) (ArchiveOutcome × Nat) :=
  match fuel with
  | 0 => Except.ok ({ success := false, reason := some "wayback-save-timeout" }, slept)
  | fuel' + 1 =>
    let slept' := slept + 15
    match check_availability env i with
    | Except.error e => Except.error (e, slept')
    | Except.ok o =>
      if o.success then Except.ok (o, slept')
      else pollLoop env (i + 1) fuel' slept'

/-- The body of the `try:` block of `ArchiveResolver.resolve`
(archive_resolver.py lines 51-65).  Returns the outcome paired with the
seconds spent sleeping in the polling loop; an uncaught exception is an
`Except.error` carrying the exception text and the seconds slept before
it. -/
def resolveBody (env : ResolverEnv) (aggressive : Bool) :
    Except (String × Nat) (ArchiveOutcome × Nat) :=
  match check_availability env 0 with
  | Except.error e => Except.error (e, 0)
  | Except.ok outcome =>
    if outcome.success || !aggressive then Except.ok (outcome, 0)
    else
      match env.save with
      | Except.error e => Except.error (e, 0)
      | Except.ok _ => pollLoop env 1 8 0

/-- `ArchiveResolver.resolve(url, paywalled, aggressive, timeout)`
(archive_resolver.py lines 43-67).  The whole body runs inside
`try/except Exception`, so every exception is converted into a failure
outcome whose `reason` is the exception text.  The second component is
the number of seconds the call spent blocked in `time.sleep`. -/
def resolve (env : ResolverEnv) (url : String) (paywalled : Bool)
    (aggressive : Bool) (timeout : Nat) : ArchiveOutcome × Nat :=
  match resolveBody env aggressive with
  | Except.ok r => r
  | Except.error (e, n) => ({ success := false, reason := some e }, n)

/-! ## Scraper (`backend/core/scraper.py`) -/

/-- Result of the live `requests.get(ref.url, timeout=30)` +
`raise_for_status` pair in `Scraper._fetch_html`: the page text, an
`HTTPError` with a status code, or another exception. -/
inductive LiveRes where
  | ok (html : String)
  | httpErr (status : Nat)
  | exc (ty : String) (msg : String)

/-- Environment of one `Scraper._fetch_html` call: the live-fetch result
and the `ArchiveOutcome` returned by the resolver at each of its two call
sites (the paywall pre-check and the access-denied fallback). -/
structure FetchEnv where
  live : LiveRes
  resolvePaywall : ArchiveOutcome
  resolveFallback : ArchiveOutcome

/-- `outcome.success and outcome.html` (scraper.py lines 76 and 88):
the archived HTML is used only when the outcome succeeded and its `html`
is truthy (present and non-empty). -/
def usable (o : ArchiveOutcome) : Option String :=
  match o.html with
  | some h => if o.success && h ≠ "" then some h else none
  | none => none

/-- The paywall pre-step of `_fetch_html` (scraper.py lines 74-77): when
the reference is flagged `suspected_paywall`, the resolver is consulted
first and its HTML used on success, paired with
`outcome.archive_url or ref.url` as the effective source. -/
def paywallPrefetch (env : FetchEnv) (ref : Reference) : Option (String × String) :=
  if ref.suspected_paywall then
    match usable env.resolvePaywall with
    | some h => some (h, orElseStr env.resolvePaywall.archive_url ref.url)
    | none => none
  else none

/-- The set membership `http_err.response.status_code in \x7b401, 402, 403, 451\x7d`
of scraper.py line 86. -/
def accessDenied (st : Nat) : Bool :=
  st = 401 || st = 402 || st = 403 || st = 451

/-- `Scraper._fetch_html(ref, aggressive)` (scraper.py lines 71-90).
Returns the `(html, effective source url)` pair or the propagated
exception, paired with the number of times the archive resolver was
consulted during the call. -/
def fetch_html (env : FetchEnv) (ref : Reference) (aggressive : Bool) :
    Except PyErr (String × String) × Nat :=
  let payCalls : Nat := if ref.suspected_paywall then 1 else 0
  match paywallPrefetch env ref with
  | some r => (Except.ok r, payCalls)
  | none =>
    match env.live with
    | LiveRes.ok h => (Except.ok (h, ref.url), payCalls)
    | LiveRes.exc ty msg => (Except.error (PyErr.exc ty msg), payCalls)
    | LiveRes.httpErr st =>
      if accessDenied st then
        match usable env.resolveFallback with
        | some h =>
          (Except.ok (h, orElseStr env.resolveFallback.archive_url ref.url), payCalls + 1)
        | none => (Except.error (PyErr.httpError st), payCalls + 1)
      else (Except.error (PyErr.httpError st), payCalls)

/-- `exc.__class__.__name__ + ": " + str(exc)` (scraper.py line 64) for
each embedded exception value. -/
def pyErrDesc : PyErr → String
  | PyErr.attributeError name => "AttributeError: " ++ name
  | PyErr.httpNotFound => "HTTPException: 404"
  | PyErr.httpError st => "HTTPError: " ++ toString st
  | PyErr.exc ty msg => ty ++ ": " ++ msg

/-- Environment of one `Scraper.scrape` call: the `_fetch_html`
environment plus the results of persisting the raw HTML
(`storage.save_bytes`) and of rendering+persisting the PDF
(`PDFService.html_to_pdf`), each either succeeding or raising the given
(class name, message) exception. -/
structure ScrapeEnv where
  fetchEnv : FetchEnv
  saveRaw : Except (String × String) Unit
  renderPdf : Except (String × String) Unit

/-- `Scraper._raw_path` (scraper.py lines 95-96): `jobs/<job>/raw/<id>.html`. -/
def raw_path (jobId : String) (ref : Reference) : String :=
  "jobs/" ++ jobId ++ "/raw/" ++ toString ref.id ++ ".html"

/-- `Scraper._pdf_path` (scraper.py lines 98-99): `jobs/<job>/pdf/<id>.pdf`. -/
def pdf_path (jobId : String) (ref : Reference) : String :=
  "jobs/" ++ jobId ++ "/pdf/" ++ toString ref.id ++ ".pdf"

/-- The body of the `try:` block of `Scraper.scrape` (scraper.py lines
42-61).  Field assignments mutate `ref` in place, so an exception carries
the partially mutated reference along with the (class, message) pair. -/
def scrapeBody (env : ScrapeEnv) (jobId : String) (ref : Reference)
    (aggressive : Bool) (now : Nat) : Except ((String × String) × Reference) Reference :=
  match (fetch_html env.fetchEnv ref aggressive).1 with
  | Except.error e => Except.error ((errClass e, errMsg e), ref)
  | Except.ok (_, srcUrl) =>
    match env.saveRaw with
    | Except.error e => Except.error (e, ref)
    | Except.ok _ =>
      let ref1 := { ref with html_path := some (raw_path jobId ref) }
      match env.renderPdf with
      | Except.error e => Except.error (e, ref1)
      | Except.ok _ =>
        let ref2 := { ref1 with pdf_path := some (pdf_path jobId ref),
                                scraped_at := some now,
                                status := ReferenceStatus.scraped }
        if srcUrl ≠ ref.url then
          Except.ok { ref2 with archive_source := some srcUrl, archive_timestamp := some now }
        else Except.ok ref2
where
  errClass : PyErr → String
    | PyErr.attributeError _ => "AttributeError"
    | PyErr.httpNotFound => "HTTPException"
    | PyErr.httpError _ => "HTTPError"
    | PyErr.exc ty _ => ty
  errMsg : PyErr → String
    | PyErr.attributeError name => name
    | PyErr.httpNotFound => "404"
    | PyErr.httpError st => toString st
    | PyErr.exc _ msg => msg

/-- `Scraper.scrape(ref, aggressive)` (scraper.py lines 40-66): returns
the mutated reference together with the `(success, error)` pair.  On any
exception the `except` clause sets `status=failed` and
`error=<class>: <message>` on the reference as mutated so far, and
returns `(False, error)`; no earlier field assignment is rolled back. -/
def scrape (env : ScrapeEnv) (jobId : String) (ref : Reference)
    (aggressive : Bool) (now : Nat) : Reference × Bool × Option String :=
  match scrapeBody env jobId ref aggressive now with
  | Except.ok ref' => (ref', true, none)
  | Except.error ((ty, msg), refPartial) =>
    let m := ty ++ ": " ++ msg
    ({ refPartial with status := ReferenceStatus.failed, error := some m }, false, some m)

/-! ## PDF service (`backend/core/pdf_service.py`) -/

/-- Dropping a prefix never lengthens a list (helper for the termination
of the tag-stripping scanner). -/
theorem dropWhile_length_le {α : Type} (p : α → Bool) (l : List α) :
    (l.dropWhile p).length ≤ l.length := by
  induction l with
  | nil => simp [List.dropWhile]
  | cons a l ih =>
    simp only [List.dropWhile]
    cases p a <;> simp
    omega

/-- One left-to-right, non-overlapping pass of
`re.sub(r"<[^>]+>", "", html)` (pdf_service.py line 70).  At a `<` the
greedy `[^>]+` consumes the maximal run of non-`>` characters; the match
succeeds only when that run is non-empty and is followed by `>`.  On a
failed match the scanner keeps the character and advances by one. -/
def stripTagsAux (l : List Char) : List Char :=
  match l with
  | [] => []
  | c :: rest =>
    if c = '<' then
      match hrem : rest.dropWhile (fun ch => ch ≠ '>') with
      | '>' :: after =>
        if rest.takeWhile (fun ch => ch ≠ '>') = [] then
          c :: stripTagsAux rest
        else stripTagsAux after
      | _ => c :: stripTagsAux rest
    else c :: stripTagsAux rest
termination_by l.length
decreasing_by
  · simp only [List.length_cons]; omega
  · have h1 := dropWhile_length_le (fun ch => ch ≠ '>') rest
    rw [hrem] at h1
    simp only [List.length_cons] at h1 ⊢
    omega
  · simp only [List.length_cons]; omega
  · simp only [List.length_cons]; omega

/-- `re.sub(r"<[^>]+>", "", html)` on strings. -/
def stripTags (s : String) : String :=
  String.mk (stripTagsAux s.data)

/-- Latin-1 serialization of text into the PDF byte stream (the fpdf
library's internal encoding); code points are taken mod 256. -/
def latin1 (s : String) : List Nat :=
  s.data.map (fun c => c.toNat % 256)

/-- PDF string escaping applied by the renderer to text placed in a
content-stream string literal: `\`, `(` and `)` are backslash-escaped. -/
def pdfEscapeChar (c : Char) : List Char :=
  if c = '(' || c = ')' || c = '\\' then ['\\', c] else [c]

/-- Escape a whole text for embedding in a PDF string literal. -/
def pdfEscape (s : String) : String :=
  String.mk (s.data.map pdfEscapeChar).flatten

/-- Model of the external `fpdf` library's in-memory document assembly as
driven by `_render_placeholder_pdf` (one A4 page, Arial 11, one cell of
text): a PDF 1.3 byte stream that starts with the `%PDF-1.3` header
comment, embeds the cell text in a page content stream, and ends with the
`%%EOF` marker.  `FPDF.output(dest="S")` returns these bytes in memory. -/
def fpdf_output (text : String) : List Nat :=
  latin1 "%PDF-1.3\n" ++
  latin1 "1 0 obj << /Type /Catalog /Pages 2 0 R >> endobj\n" ++
  latin1 "2 0 obj << /Type /Pages /Kids [3 0 R] /Count 1 >> endobj\n" ++
  latin1 "3 0 obj << /Type /Page /Parent 2 0 R /MediaBox [0 0 595.28 841.89] /Resources << /Font << /F1 4 0 R >> >> /Contents 5 0 R >> endobj\n" ++
  latin1 "4 0 obj << /Type /Font /Subtype /Type1 /BaseFont /Helvetica >> endobj\n" ++
  latin1 "5 0 obj << >> stream\nBT /F1 11.00 Tf (" ++
  latin1 (pdfEscape text) ++
  latin1 ") Tj ET\nendstream endobj\n" ++
  latin1 "trailer << /Size 6 /Root 1 0 R >>\n%%EOF\n"

/-- `PDFService._render_placeholder_pdf(html)` (pdf_service.py lines
62-76): strip markup tags with `re.sub(r"<[^>]+>", "", html)`, cap the
text at 4000 characters, and hand it to the fpdf renderer, returning the
document bytes in memory. -/
def render_placeholder_pdf (html : String) : List Nat :=
  fpdf_output ((stripTags html).take 4000)

/-- `PDFService.html_to_pdf(html, path)` (pdf_service.py lines 44-57)
when no Playwright renderer is configured: render the placeholder PDF and
persist it via `storage.save_bytes`, returning the updated path-addressed
store and the written path. -/
def html_to_pdf_fallback (store : List (String × List Nat)) (html : String)
    (relPdfPath : String) : List (String × List Nat) × String :=
  ((relPdfPath, render_placeholder_pdf html) :: store, relPdfPath)

/-! ## Job progress broadcaster (`backend/api/routes_progress.py`) -/

/-- One websocket channel registered for a job.  `fails` says whether
`ws.send_json` raises for this channel (a disconnected socket). -/
structure Chan where
  id : Nat
  fails : Bool
deriving DecidableEq, Repr

/-- `_ConnectionManager.broadcast(job_id, message)` (routes_progress.py
lines 37-39): `for ws in list(self.active.get(job_id, [])):
await ws.send_json(message)`.  Returns the ids of the channels that
received the message, in iteration order, and the id of the channel whose
send raised, if the loop aborted with a propagated exception. -/
def broadcastRun (chans : List Chan) (message : String) : List Nat × Option Nat :=
  match chans with
  | [] => ([], none)
  | c :: rest =>
    if c.fails then ([], some c.id)
    else
      let r := broadcastRun rest message
      (c.id :: r.1, r.2)

/-- The completion test of `get_progress` (routes_progress.py line 56):
`r.status in \x7bReferenceStatus.scraped, ReferenceStatus.failed,
ReferenceStatus.blocked\x7d`. -/
def completedPred (s : ReferenceStatus) : Bool :=
  [ReferenceStatus.scraped, ReferenceStatus.failed, ReferenceStatus.blocked].contains s

/-- `total = len(refs) or 1` (routes_progress.py line 55). -/
def totalLen (refs : List ReferenceStatus) : Nat :=
  if refs.length = 0 then 1 else refs.length

/-- The `completed` count of `get_progress` (routes_progress.py line 56). -/
def completedCount (refs : List ReferenceStatus) : Nat :=
  refs.countP completedPred

/-- `percent = completed / total * 100` of `get_progress`
(routes_progress.py lines 55-57) over the statuses of the job page's
references, with float arithmetic modelled over the rationals. -/
def getProgressPercent (refs : List ReferenceStatus) : ℚ :=
  (completedCount refs : ℚ) / (totalLen refs : ℚ) * 100

/-- The spec's terminal-state predicate: `scraped`, `failed` or
`blocked` (not `pending`). -/
def terminalSpec (s : ReferenceStatus) : Prop :=
  s = ReferenceStatus.scraped ∨ s = ReferenceStatus.failed ∨ s = ReferenceStatus.blocked

instance (s : ReferenceStatus) : Decidable (terminalSpec s) := by
  unfold terminalSpec; infer_instance

/-! ## Reference routes (`backend/api/routes_references.py`) -/

/-- The mark-and-broadcast prologue of the scrape batch job
(routes_references.py lines 96-106): for each targeted reference id, skip
missing references, set the status to the `ReferenceStatus.scraping`
enum attribute and broadcast a `progress_update` event.  Returns the
updated references and the emitted `(reference_id, status)` broadcasts,
or the exception that escaped the job.  The attribute access goes through
`referenceStatusAttr` because `scraping` is resolved against the enum's
member table at runtime. -/
def markScrapingPrologue (getRef : Nat → Option Reference) (ids : List Nat) :
    Except PyErr (List (Nat × Reference) × List (Nat × String)) :=
  match ids with
  | [] => Except.ok ([], [])
  | rid :: rest =>
    match getRef rid with
    | none => markScrapingPrologue getRef rest
    | some r =>
      match referenceStatusAttr "scraping" with
      | Except.error e => Except.error e
      | Except.ok st =>
        match markScrapingPrologue getRef rest with
        | Except.error e => Except.error e
        | Except.ok (refs, casts) =>
          Except.ok ((rid, { r with status := st }) :: refs, (rid, "scraping") :: casts)

/-- The attribute names defined on the storage collaborator
(`AbstractStorage` in backend/infra/storage/base.py plus
`LocalFileStorage` in backend/infra/storage/local_fs.py): `save_bytes`,
`open`, `exists` and the `root` attribute.  Neither class defines a
`delete` method. -/
def storageAttrNames : List String :=
  ["save_bytes", "open", "exists", "root"]

/-- Runtime attribute access `storage.<name>` on the
`LocalFileStorage` instance: raises `AttributeError` for any name outside
the defined attribute table. -/
def storageAttr (name : String) : Except PyErr Unit :=
  if storageAttrNames.contains name then Except.ok () else Except.error (PyErr.attributeError name)

/-- `reset_reference_status(reference_id)` (routes_references.py lines
154-175): 404 when the reference does not exist; otherwise delete the
stored PDF and raw-HTML files through `storage.delete` when their paths
are truthy, then clear the status to `pending` and null out both artifact
paths and the archive/error/timestamp fields. -/
def reset_reference_status (ref? : Option Reference) : Except PyErr Reference :=
  match ref? with
  | none => Except.error PyErr.httpNotFound
  | some ref =>
    match (if strTruthy ref.pdf_path then storageAttr "delete" else Except.ok ()) with
    | Except.error e => Except.error e
    | Except.ok _ =>
      match (if strTruthy ref.html_path then storageAttr "delete" else Except.ok ()) with
      | Except.error e => Except.error e
      | Except.ok _ =>
        Except.ok { ref with status := ReferenceStatus.pending,
                             pdf_path := none, html_path := none,
                             archive_source := none, archive_timestamp := none,
                             error := none, scraped_at := none }

/-! ## Browser pool (`backend/core/browser_pool.py`) -/

/-- State of `AsyncBrowserPool`: the started flag, the availability queue
(front = next `get`), the `_browsers` list filled by `start`, the number
of engine instances ever launched (fresh instances get ids
`0, 1, 2, ...`), and the instances that have been closed. -/
structure PoolState where
  started : Bool
  available : List Nat
  browsers : List Nat
  launched : Nat
  closed : List Nat
deriving DecidableEq, Repr

/-- The pool as constructed by `AsyncBrowserPool.__init__`. -/
def poolInit : PoolState :=
  { started := false, available := [], browsers := [], launched := 0, closed := [] }

/-- `AsyncBrowserPool.start()` (browser_pool.py lines 46-71): a second
call on a started pool is a no-op; otherwise launch exactly `size`
instances, record them in `_browsers` and enqueue each into the
availability queue. -/
def startPool (size : Nat) (p : PoolState) : PoolState :=
  if p.started then p
  else
    let fresh := (List.range size).map (fun i => p.launched + i)
    { started := true, available := fresh, browsers := p.browsers ++ fresh,
      launched := p.launched + size, closed := p.closed }

/-- Errors with which `acquire` can fail before yielding an instance. -/
inductive PoolErr where
  /-- `RuntimeError("Browser pool not started. Call start() first.")` -/
  | notStarted
  /-- `await self._available.get()` would suspend forever: the queue is
  empty and no other task will release an instance (single-worker model). -/
  | wouldBlock
deriving DecidableEq, Repr

/-- `AsyncBrowserPool.acquire()` when the body using the instance raises
`e` (browser_pool.py lines 103-140, `except` arm): fail fast if the pool
is not started; dequeue the front instance; close it (close errors are
swallowed); when the replacement launch succeeds (`launchOk`), launch one
fresh instance and enqueue it, otherwise enqueue the closed instance
back; finally re-raise `e` — the returned string is the re-raised
exception. -/
def acquireErr (p : PoolState) (e : String) (launchOk : Bool) :
    Except PoolErr (PoolState × String) :=
  if !p.started then Except.error PoolErr.notStarted
  else
    match p.available with
    | [] => Except.error PoolErr.wouldBlock
    | b :: rest =>
      if launchOk then
        Except.ok ({ p with available := rest ++ [p.launched],
                            launched := p.launched + 1,
                            closed := b :: p.closed }, e)
      else
        Except.ok ({ p with available := rest ++ [b], closed := b :: p.closed }, e)

/-- `AsyncBrowserPool.acquire()` when the body succeeds (browser_pool.py
lines 103-143, `else` arm): dequeue the front instance, use it, and put
it back. -/
def acquireOk (p : PoolState) : Except PoolErr PoolState :=
  if !p.started then Except.error PoolErr.notStarted
  else
    match p.available with
    | [] => Except.error PoolErr.wouldBlock
    | b :: rest => Except.ok { p with available := rest ++ [b] }

/-! ## Concrete fixtures -/

/-- An environment in which the Wayback index never has a snapshot and
the save trigger succeeds. -/
def envNoSnap : ResolverEnv := { availAt := fun _ => AvailRes.nosnap, save := Except.ok () }

/-- An environment in which every network call raises
`ConnectionError("Network is down")`. -/
def envDown : ResolverEnv :=
  { availAt := fun _ => AvailRes.exc "Network is down", save := Except.ok () }

/-- A freshly parsed reference. -/
def sampleRef : Reference := { id := 1, wiki_page_id := 7, url := "https://ref.com" }

/-- A scraped reference holding both artifact paths. -/
def scrapedRef : Reference :=
  { sampleRef with id := 2, status := ReferenceStatus.scraped,
                   pdf_path := some "jobs/j/pdf/2.pdf",
                   html_path := some "jobs/j/raw/2.html",
                   archive_source := some "http://arch",
                   archive_timestamp := some 99, error := some "old",
                   scraped_at := some 99 }

/-- A fallback archive outcome with usable cached HTML. -/
def fbOutcome : ArchiveOutcome :=
  { success := true, html := some "cached", archive_url := some "http://arch" }

/-- Fetch environment: live fetch fails with HTTP 403, fallback resolver
has a snapshot. -/
def fenv403 : FetchEnv :=
  { live := LiveRes.httpErr 403, resolvePaywall := { success := false },
    resolveFallback := fbOutcome }

/-- Fetch environment: live fetch succeeds. -/
def okFetchEnv : FetchEnv :=
  { live := LiveRes.ok "<html>x</html>", resolvePaywall := { success := false },
    resolveFallback := { success := false } }

/-- Scrape environment: fetch and raw-HTML persistence succeed, PDF
rendering raises. -/
def senvPdfBoom : ScrapeEnv :=
  { fetchEnv := okFetchEnv, saveRaw := Except.ok (),
    renderPdf := Except.error ("FPDFException", "boom") }

/-! ## Claims -/

/-- C1: the claim says that for a URL with no archived snapshot,
`resolve` with `aggressive=true` triggers the save and returns
immediately (blocking < 1s) with `reason="wayback-save-triggered"` and a
non-null retry-after.  Evaluating the embedded `resolve` at such an
input shows the code instead sleeps 120 seconds of wall-clock time
polling Wayback and returns `reason="wayback-save-timeout"`; the
`ArchiveOutcome` dataclass does not even declare a retry-after field. -/
theorem resolve_aggressive_no_snapshot_times_out :
    resolve envNoSnap "https://no-snapshot.com" false true 30 =
      ({ success := false, archive_url := none, html := none, source := none,
         timestamp := none, reason := some "wayback-save-timeout" }, 120) ∧
    (resolve envNoSnap "https://no-snapshot.com" false true 30).1.reason ≠
      some "wayback-save-triggered" ∧
    1 ≤ (resolve envNoSnap "https://no-snapshot.com" false true 30).2 := by
  decide

/-- C2: the claim says every targeted existing reference is set to the
status `scraping` (a member of the domain
`pending | scraping | scraped | failed | blocked`) and broadcast before
any scrape is dispatched.  But `backend/core/models.py` declares no
`scraping` member, so the batch prologue's attribute access
`ReferenceStatus.scraping` raises `AttributeError` on the first existing
reference, before any status update, broadcast or dispatch. -/
theorem scrape_batch_scraping_attribute_error :
    markScrapingPrologue (fun i => if i = 1 then some sampleRef else none) [1] =
      Except.error (PyErr.attributeError "scraping") ∧
    referenceStatusAttr "scraping" = Except.error (PyErr.attributeError "scraping") :=
  ⟨rfl, rfl⟩

/-- C3: the claim says resetting any existing reference — including a
scraped one holding both artifact paths — completes and leaves it
`pending` with all artifact/archive/error fields cleared, after deleting
the stored files via the storage collaborator.  But neither
`AbstractStorage` nor `LocalFileStorage` defines a `delete` method, so
for a reference with a truthy artifact path the route raises
`AttributeError` at `storage.delete(...)` and never resets the
reference. -/
theorem reset_scraped_reference_attribute_error :
    reset_reference_status (some scrapedRef) =
      Except.error (PyErr.attributeError "delete") ∧
    storageAttr "delete" = Except.error (PyErr.attributeError "delete") :=
  ⟨rfl, rfl⟩

/-- C4 counterexample: with two registered channels of which the first
one's send raises, the second channel does not receive the event and the
exception propagates out of `broadcast` — refuting the claim that the
remaining channels still receive the event and that no exception reaches
the caller. -/
theorem broadcast_failure_not_isolated :
    ¬ (2 ∈ (broadcastRun [⟨1, true⟩, ⟨2, false⟩] "event").1 ∧
       (broadcastRun [⟨1, true⟩, ⟨2, false⟩] "event").2 = none) := by
  decide

/-- C4 amended: `broadcast` delivers the event to the registered channels
of the job in registration order only up to the first channel whose send
raises; that channel's exception propagates to the caller and the
channels after it receive nothing.  When no send raises, every channel
receives the event and nothing propagates. -/
theorem broadcast_delivers_prefix (chans : List Chan) (message : String) :
    broadcastRun chans message =
      ((chans.takeWhile (fun c => !c.fails)).map Chan.id,
       ((chans.dropWhile (fun c => !c.fails)).head?).map Chan.id) := by
  induction chans with
  | nil => rfl
  | cons c rest ih =>
    cases hc : c.fails <;>
      simp [broadcastRun, List.takeWhile_cons, List.dropWhile_cons, hc, ih]

/-- The leading bytes of the fpdf header comment `%PDF-1.3`. -/
theorem latin1_pdf_header :
    latin1 "%PDF-1.3\n" = [37, 80, 68, 70, 45, 49, 46, 51, 10] := by decide

/-- C5: for every HTML input string — empty or malformed included — the
text-only fallback rendering path is total (the embedded
`render_placeholder_pdf` is a function, so no exception escapes it) and
produces a non-empty byte stream whose first five bytes are the PDF
document signature `%PDF-` (0x25 0x50 0x44 0x46 0x2D). -/
theorem render_placeholder_pdf_signature (html : String) :
    render_placeholder_pdf html ≠ [] ∧
    (render_placeholder_pdf html).take 5 = [37, 80, 68, 70, 45] := by
  unfold render_placeholder_pdf fpdf_output
  rw [latin1_pdf_header]
  exact ⟨by simp, rfl⟩

/-- C6: on a started pool with a non-empty availability queue holding
`N` total available-or-in-use instances, an acquire whose body raises
`e` closes the dequeued instance, launches exactly one fresh replacement
and enqueues it, restores the availability count to its pre-acquire
value — so the pool still holds `N` available-or-in-use instances — and
re-raises `e` to the caller. -/
theorem acquire_error_replaces_instance (p : PoolState) (e : String) (N inUse : Nat)
    (hstarted : p.started = true) (hne : p.available ≠ [])
    (hcount : p.available.length + inUse = N) :
    ∃ b rest q, p.available = b :: rest ∧
      acquireErr p e true = Except.ok (q, e) ∧
      q.closed = b :: p.closed ∧
      q.launched = p.launched + 1 ∧
      p.launched ∈ q.available ∧
      q.available.length = p.available.length ∧
      q.available.length + inUse = N := by
  match havail : p.available with
  | [] => exact absurd havail hne
  | b :: rest =>
    refine ⟨b, rest,
      { p with available := rest ++ [p.launched], launched := p.launched + 1,
               closed := b :: p.closed },
      rfl, ?_, rfl, rfl, by simp, by simp, ?_⟩
    · unfold acquireErr
      rw [hstarted, havail]
      rfl
    · rw [havail] at hcount
      simp at hcount ⊢
      omega

/-- C6 witness: a pool started with size 2, with nothing else in use,
after an acquire whose body raises `ValueError`. -/
theorem acquire_error_replaces_instance_witness :
    ∃ b rest q, (startPool 2 poolInit).available = b :: rest ∧
      acquireErr (startPool 2 poolInit) "ValueError: boom" true =
        Except.ok (q, "ValueError: boom") ∧
      q.closed = b :: (startPool 2 poolInit).closed ∧
      q.launched = (startPool 2 poolInit).launched + 1 ∧
      (startPool 2 poolInit).launched ∈ q.available ∧
      q.available.length = (startPool 2 poolInit).available.length ∧
      q.available.length + 0 = 2 :=
  acquire_error_replaces_instance (startPool 2 poolInit) "ValueError: boom" 2 0
    (by decide) (by decide) (by decide)

/-- C7: `resolve` never raises: whenever the body of its `try:` block
raises any exception `e` (after sleeping `n` seconds), the `except`
clause converts it into an outcome with `success=False` and
`reason=str(e)`, for every combination of the `paywalled`, `aggressive`
and `timeout` arguments. -/
theorem resolve_never_raises (env : ResolverEnv) (url : String)
    (paywalled aggressive : Bool) (timeout : Nat) (e : String) (n : Nat)
    (h : resolveBody env aggressive = Except.error (e, n)) :
    resolve env url paywalled aggressive timeout =
      ({ success := false, archive_url := none, html := none, source := none,
         timestamp := none, reason := some e }, n) := by
  unfold resolve
  rw [h]

/-- C7 witness: the availability request raises
`ConnectionError("Network is down")`; resolve returns a failure outcome
carrying that description. -/
theorem resolve_never_raises_witness :
    resolve envDown "https://any-url.com" false false 30 =
      ({ success := false, archive_url := none, html := none, source := none,
         timestamp := none, reason := some "Network is down" }, 0) :=
  resolve_never_raises envDown "https://any-url.com" false false 30 "Network is down" 0 rfl

/-- C8: in `_fetch_html`, once the paywall pre-step has not returned and
the live fetch fails with HTTP status `st`: for an access-denied-class
status (401/402/403/451) the archive resolver is consulted once more and
its HTML is used on success (the `HTTPError` is re-raised when the
fallback outcome is unusable); for every other failing status the
`HTTPError` propagates with no further resolver consultation. -/
theorem fetch_html_access_denied_policy (env : FetchEnv) (ref : Reference)
    (aggressive : Bool) (st : Nat)
    (hpre : paywallPrefetch env ref = none) (hlive : env.live = LiveRes.httpErr st) :
    (accessDenied st = true → ∀ h, usable env.resolveFallback = some h →
      fetch_html env ref aggressive =
        (Except.ok (h, orElseStr env.resolveFallback.archive_url ref.url),
         (if ref.suspected_paywall then 1 else 0) + 1)) ∧
    (accessDenied st = true → usable env.resolveFallback = none →
      fetch_html env ref aggressive =
        (Except.error (PyErr.httpError st), (if ref.suspected_paywall then 1 else 0) + 1)) ∧
    (accessDenied st = false →
      fetch_html env ref aggressive =
        (Except.error (PyErr.httpError st), (if ref.suspected_paywall then 1 else 0))) := by
  refine ⟨fun hden h hus => ?_, fun hden hus => ?_, fun hden => ?_⟩
  · simp only [fetch_html, hpre, hlive, hden, hus, if_true]
  · simp only [fetch_html, hpre, hlive, hden, hus, if_true]
  · simp only [fetch_html, hpre, hlive, hden, Bool.false_eq_true, if_false]

/-- C8 witness: live fetch returns HTTP 403 and the fallback archive
outcome carries cached HTML. -/
theorem fetch_html_access_denied_policy_witness :
    fetch_html fenv403 sampleRef false = (Except.ok ("cached", "http://arch"), 0 + 1) :=
  (fetch_html_access_denied_policy fenv403 sampleRef false 403 rfl rfl).1 rfl "cached" rfl

/-- C9: `get_progress` counts a reference as complete exactly when its
status is `scraped`, `failed` or `blocked`; the percent is
`completed / total * 100` with `total = len(refs) or 1`, so it is `0`
for a page with no references, always lies in `[0, 100]`, and equals
`100` when the page has references and all of them are terminal. -/
theorem get_progress_percent_correct (refs : List ReferenceStatus) :
    (∀ s, completedPred s = true ↔ terminalSpec s) ∧
    0 ≤ getProgressPercent refs ∧
    getProgressPercent refs ≤ 100 ∧
    (refs = [] → getProgressPercent refs = 0) ∧
    (refs ≠ [] → (∀ s ∈ refs, terminalSpec s) → getProgressPercent refs = 100) := by
  have hcle : completedCount refs ≤ totalLen refs := by
    have hl := List.countP_le_length (p := completedPred) (l := refs)
    unfold totalLen completedCount
    split <;> omega
  have htpos : 0 < totalLen refs := by
    unfold totalLen
    split <;> omega
  have htQ : (0 : ℚ) < (totalLen refs : ℚ) := by exact_mod_cast htpos
  refine ⟨fun s => by cases s <;> decide, ?_, ?_, ?_, ?_⟩
  · unfold getProgressPercent
    positivity
  · unfold getProgressPercent
    have h1 : (completedCount refs : ℚ) / (totalLen refs : ℚ) ≤ 1 :=
      (div_le_one htQ).mpr (by exact_mod_cast hcle)
    calc (completedCount refs : ℚ) / (totalLen refs : ℚ) * 100
        ≤ 1 * 100 := mul_le_mul_of_nonneg_right h1 (by norm_num)
      _ = 100 := by norm_num
  · intro h
    subst h
    simp [getProgressPercent, completedCount, totalLen]
  · intro hne hall
    have hc : completedCount refs = refs.length := by
      unfold completedCount
      refine List.countP_eq_length.mpr (fun a ha => ?_)
      rcases hall a ha with h | h | h <;> subst h <;> decide
    have hlz : refs.length ≠ 0 := fun h0 => hne (List.length_eq_zero.mp h0)
    have ht : totalLen refs = refs.length := by
      unfold totalLen
      split
      · omega
      · rfl
    unfold getProgressPercent
    rw [hc, ht, div_self (by exact_mod_cast hlz), one_mul]

/-- C9 witness: a page whose two references are both terminal reports
100 percent. -/
theorem get_progress_percent_correct_witness :
    getProgressPercent [ReferenceStatus.scraped, ReferenceStatus.blocked] = 100 :=
  (get_progress_percent_correct [ReferenceStatus.scraped, ReferenceStatus.blocked]).2.2.2.2
    (by decide) (by decide)

/-- C10: when `scrape` has fetched HTML and persisted it (setting
`html_path` to the raw path) and the PDF rendering or artifact storage
step then raises `(ty, msg)`, the `except` clause records
`status=failed` and `error="<ty>: <msg>"` and returns
`(False, "<ty>: <msg>")` — but the earlier `html_path` assignment is
not rolled back: the reference keeps the just-persisted raw-HTML path. -/
theorem scrape_no_rollback_after_html_persisted (env : ScrapeEnv) (jobId : String)
    (ref : Reference) (aggressive : Bool) (now : Nat) (html src ty msg : String)
    (hfetch : (fetch_html env.fetchEnv ref aggressive).1 = Except.ok (html, src))
    (hsave : env.saveRaw = Except.ok ())
    (hpdf : env.renderPdf = Except.error (ty, msg)) :
    scrape env jobId ref aggressive now =
      ({ ref with html_path := some (raw_path jobId ref),
                  status := ReferenceStatus.failed,
                  error := some (ty ++ ": " ++ msg) },
       false, some (ty ++ ": " ++ msg)) := by
  unfold scrape scrapeBody
  rw [hfetch, hsave, hpdf]

/-- C10 witness: PDF rendering raises `FPDFException: boom` after the
raw HTML of reference 1 has been persisted under
`jobs/job1/raw/1.html`; the failed reference keeps that path. -/
theorem scrape_no_rollback_after_html_persisted_witness :
    scrape senvPdfBoom "job1" sampleRef false 99 =
      ({ sampleRef with html_path := some (raw_path "job1" sampleRef),
                        status := ReferenceStatus.failed,
                        error := some ("FPDFException" ++ ": " ++ "boom") },
       false, some ("FPDFException" ++ ": " ++ "boom")) :=
  scrape_no_rollback_after_html_persisted senvPdfBoom "job1" sampleRef false 99
    "<html>x</html>" "https://ref.com" "FPDFException" "boom" rfl rfl rfl
